import Mathlib

/-!
# Verification of the Professor Al Gorithm challenge-guidance component

Shallow embedding of the core logic of `src/app.py` (the authoritative second
`ProfessorAlGorithm` class, lines 422-977, and the UI-layer `guide_phase`
wrapper, lines 1133-1147), together with a spec-modelled pattern detector
(spec section 4.1, absent from the source tree).

Python dictionaries holding challenge records are modelled as Lean structures
in which every field of the static fallback catalog is present; the one key
the fallback catalog never carries (`track`, read with a default by
`_format_mcp_challenges`) is modelled as an `Option`.  Machine behaviour that
can raise (`challenge['examples'][0]` on an empty list inside
`guide_canvas_phase`) is modelled with `Except`.  Methods that assign to
`self` are modelled by explicit state passing on a `Session` record; methods
with no such assignment return the session unchanged.
-/

/-- The set of characters stripped by Python `str.strip()` (ASCII range). -/
def isPyWhitespace (c : Char) : Bool :=
  c == ' ' || c == '\t' || c == '\n' || c == '\r' || c == '\x0b' || c == '\x0c'

/-- Python `s.strip()`: drop leading and trailing whitespace characters. -/
def pyStrip (s : String) : String :=
  ((((s.toList.dropWhile isPyWhitespace).reverse).dropWhile isPyWhitespace).reverse).asString

/-- Auxiliary scan for `pyTitle`: the flag records whether the previous
character was alphabetic (Python `str.title()` semantics for ASCII text). -/
def pyTitleAux : Bool → List Char → List Char
  | _, [] => []
  | prevAlpha, c :: cs =>
    let c' := if c.isAlpha then (if prevAlpha then c.toLower else c.toUpper) else c
    c' :: pyTitleAux c.isAlpha cs

/-- Python `s.title()`: uppercase each letter that follows a non-letter,
lowercase the rest. -/
def pyTitle (s : String) : String :=
  (pyTitleAux false s.toList).asString

/-- Python `s[:n] + "..." if len(s) > n else s` (description truncation). -/
def pyTruncate (n : Nat) (s : String) : String :=
  if s.length > n then (s.toList.take n).asString ++ "..." else s

/-- Scan for `pat` at every suffix of the text. -/
def containsSubstrAux (pat : List Char) : List Char → Bool
  | [] => pat.isEmpty
  | c :: cs => pat.isPrefixOf (c :: cs) || containsSubstrAux pat cs

/-- Python `pat in text` substring test on strings. -/
def containsSubstr (text pat : String) : Bool :=
  containsSubstrAux pat.toList text.toList

/-- Python `s.lower()` as a character-list map. -/
def pyLower (s : String) : String :=
  (s.toList.map Char.toLower).asString

/-- One `{input, output}` example of a challenge (`examples` entries of the
fallback catalog in `_get_fallback_challenge_data`). -/
structure ChallengeExample where
  input : String
  output : String
deriving DecidableEq, Inhabited

/-- A challenge record as stored in `available_challenges` / the fallback
catalog of `_get_fallback_challenge_data`.  `track` is the only key the
catalog never carries; `_format_mcp_challenges` reads it with the default
`"Programming"`. -/
structure Challenge where
  id : String
  name : String
  description : String
  skills : List String
  difficulty : String
  examples : List ChallengeExample
  track : Option String := none
deriving DecidableEq, Inhabited

/-- The mutable state of a `ProfessorAlGorithm` instance (`__init__`,
lines 425-429; the unused `session_data` dictionary is omitted). -/
structure Session where
  current_phase : String
  selected_challenge : Option Challenge
  available_challenges : List Challenge
deriving DecidableEq, Inhabited

/-- `ProfessorAlGorithm.__init__`: phase `"constraints"`, no selected
challenge, no available challenges. -/
def initialSession : Session :=
  { current_phase := "constraints"
    selected_challenge := none
    available_challenges := [] }

/-- The five easy challenges of `_get_fallback_challenge_data`. -/
def fallbackEasyChallenges : List Challenge := [
  { id := "two-sum"
    name := "Two Sum Problem"
    description := "Given an array of integers and a target sum, find two numbers that add up to the target."
    skills := ["Hash tables", "Array traversal"]
    difficulty := "easy"
    examples := [⟨"[2,7,11,15], target=9", "[0,1]"⟩, ⟨"[3,2,4], target=6", "[1,2]"⟩] },
  { id := "valid-parentheses"
    name := "Valid Parentheses"
    description := "Given a string containing just the characters \x27(\x27, \x27)\x27, \x27\x7b\x27, \x27\x7d\x27, \x27[\x27 and \x27]\x27, determine if the input string is valid."
    skills := ["Stack data structure", "String processing"]
    difficulty := "easy"
    examples := [⟨"\"()\"", "true"⟩, ⟨"\"([)]\"", "false"⟩] },
  { id := "palindrome-check"
    name := "Palindrome Check"
    description := "Determine if a given string reads the same forward and backward."
    skills := ["Two pointers technique", "String manipulation"]
    difficulty := "easy"
    examples := [⟨"\"racecar\"", "true"⟩, ⟨"\"hello\"", "false"⟩] },
  { id := "merge-sorted-lists"
    name := "Merge Two Sorted Lists"
    description := "Merge two sorted linked lists and return it as a new sorted list."
    skills := ["Linked lists", "Merge algorithms"]
    difficulty := "easy"
    examples := [⟨"[1,2,4], [1,3,4]", "[1,1,2,3,4,4]"⟩, ⟨"[], [0]", "[0]"⟩] },
  { id := "remove-duplicates"
    name := "Remove Duplicates"
    description := "Remove duplicates from a sorted array in-place."
    skills := ["Two pointers", "Array manipulation"]
    difficulty := "easy"
    examples := [⟨"[1,1,2]", "[1,2]"⟩, ⟨"[0,0,1,1,1,2,2,3,3,4]", "[0,1,2,3,4]"⟩] }]

/-- The two medium challenges of `_get_fallback_challenge_data`. -/
def fallbackMediumChallenges : List Challenge := [
  { id := "maximum-subarray"
    name := "Maximum Subarray (Kadane\x27s Algorithm)"
    description := "Find the contiguous subarray within a one-dimensional array that has the largest sum."
    skills := ["Dynamic programming", "Optimization"]
    difficulty := "medium"
    examples := [⟨"[-2,1,-3,4,-1,2,1,-5,4]", "6 (subarray [4,-1,2,1])"⟩, ⟨"[1]", "1"⟩] },
  { id := "longest-substring"
    name := "Longest Substring Without Repeating Characters"
    description := "Find the length of the longest substring without repeating characters."
    skills := ["Sliding window", "Hash maps"]
    difficulty := "medium"
    examples := [⟨"\"abcabcbb\"", "3 (\"abc\")"⟩, ⟨"\"bbbbb\"", "1 (\"b\")"⟩] }]

/-- The single hard challenge of `_get_fallback_challenge_data`. -/
def fallbackHardChallenges : List Challenge := [
  { id := "median-two-arrays"
    name := "Median of Two Sorted Arrays"
    description := "Find the median of two sorted arrays with optimal time complexity."
    skills := ["Binary search", "Divide and conquer"]
    difficulty := "hard"
    examples := [⟨"[1,3], [2]", "2.0"⟩, ⟨"[1,2], [3,4]", "2.5"⟩] }]

/-- `ProfessorAlGorithm._get_fallback_challenge_data`: the static catalog
keyed by difficulty; `dict.get(difficulty, easy)` defaults to the easy list
for every other key. -/
def getFallbackChallengeData (difficulty : String) : List Challenge :=
  if difficulty = "easy" then fallbackEasyChallenges
  else if difficulty = "medium" then fallbackMediumChallenges
  else if difficulty = "hard" then fallbackHardChallenges
  else fallbackEasyChallenges


/-- The display-only fallback challenge texts of `_get_fallback_challenges`
(easy list). -/
def fallbackEasyTexts : List String := [
  "**🎯 Two Sum Problem**\nGiven an array of integers and a target sum, find two numbers that add up to the target.\n*Skills: Hash tables, array traversal*",
  "**🎯 Valid Parentheses**\nGiven a string containing just the characters \x27(\x27, \x27)\x27, \x27\x7b\x27, \x27\x7d\x27, \x27[\x27 and \x27]\x27, determine if the input string is valid.\n*Skills: Stack data structure, string processing*",
  "**🎯 Palindrome Check**\nDetermine if a given string reads the same forward and backward.\n*Skills: Two pointers technique, string manipulation*",
  "**🎯 Merge Two Sorted Lists**\nMerge two sorted linked lists and return it as a new sorted list.\n*Skills: Linked lists, merge algorithms*",
  "**🎯 Remove Duplicates**\nRemove duplicates from a sorted array in-place.\n*Skills: Two pointers, array manipulation*"]

/-- The display-only fallback challenge texts of `_get_fallback_challenges`
(medium list). -/
def fallbackMediumTexts : List String := [
  "**🎯 Maximum Subarray (Kadane\x27s Algorithm)**\nFind the contiguous subarray within a one-dimensional array that has the largest sum.\n*Skills: Dynamic programming, optimization*",
  "**🎯 Longest Substring Without Repeating Characters**\nFind the length of the longest substring without repeating characters.\n*Skills: Sliding window, hash maps*",
  "**🎯 Binary Tree Level Order Traversal**\nReturn the level order traversal of a binary tree\x27s nodes\x27 values.\n*Skills: BFS, queue data structure, trees*",
  "**🎯 3Sum Problem**\nFind all unique triplets in an array that sum to zero.\n*Skills: Two pointers, sorting, array manipulation*",
  "**🎯 Rotated Sorted Array Search**\nSearch for a target value in a rotated sorted array.\n*Skills: Binary search, modified algorithms*"]

/-- The display-only fallback challenge texts of `_get_fallback_challenges`
(hard list). -/
def fallbackHardTexts : List String := [
  "**🎯 Median of Two Sorted Arrays**\nFind the median of two sorted arrays with optimal time complexity.\n*Skills: Binary search, divide and conquer*",
  "**🎯 N-Queens Problem**\nPlace N queens on an N×N chessboard so that no two queens attack each other.\n*Skills: Backtracking, constraint satisfaction*",
  "**🎯 Word Ladder**\nFind the shortest transformation sequence from a start word to an end word.\n*Skills: BFS, graph algorithms, string manipulation*",
  "**🎯 Serialize and Deserialize Binary Tree**\nDesign an algorithm to serialize and deserialize a binary tree.\n*Skills: Tree traversal, string parsing, design patterns*",
  "**🎯 Regular Expression Matching**\nImplement regular expression matching with support for \x27.\x27 and \x27*\x27.\n*Skills: Dynamic programming, recursion, pattern matching*"]

/-- The `for i, challenge in enumerate(selected_challenges, 1)` loop body of
`_get_fallback_challenges`: each block is `f"{i}. {challenge}\n\n"`. -/
def numberedBlocks : Nat → List String → String
  | _, [] => ""
  | i, s :: rest => toString i ++ ". " ++ s ++ "\n\n" ++ numberedBlocks (i + 1) rest

/-- `ProfessorAlGorithm._get_fallback_challenges`: the display-only fallback
text for a difficulty (`dict.get` defaults to the easy list). -/
def getFallbackChallenges (difficulty : String) : String :=
  let selected_challenges :=
    if difficulty = "easy" then fallbackEasyTexts
    else if difficulty = "medium" then fallbackMediumTexts
    else if difficulty = "hard" then fallbackHardTexts
    else fallbackEasyTexts
  "## 🎯 " ++ pyTitle difficulty ++ " Coding Challenges\n\n"
    ++ numberedBlocks 1 selected_challenges
    ++ "💡 **Learning Focus**: These " ++ difficulty ++ " challenges help you practice fundamental problem-solving patterns!\n"
    ++ "🎨 **Next Step**: Choose one challenge and work through it using the Algorithm Design Canvas below."

/-- The per-challenge block of `_format_challenge_selection`
(`for i, challenge in enumerate(challenges, 1)`). -/
def formatChallengeSelectionItems : Nat → List Challenge → String
  | _, [] => ""
  | i, c :: cs =>
    "**" ++ toString i ++ ". " ++ c.name ++ "**\n"
      ++ "📝 " ++ c.description ++ "\n"
      ++ "🛠️ Skills: " ++ String.intercalate ", " c.skills ++ "\n"
      ++ (match c.examples with
          | [] => ""
          | e :: _ => "💡 Example: " ++ e.input ++ " → " ++ e.output ++ "\n")
      ++ "\n"
      ++ formatChallengeSelectionItems (i + 1) cs

/-- `ProfessorAlGorithm._format_challenge_selection`: the selection UI text
for the fallback catalog. -/
def formatChallengeSelection (challenges : List Challenge) (difficulty : String) : String :=
  "## 🎯 Select a " ++ pyTitle difficulty ++ " Challenge\n\n"
    ++ "Choose a challenge to work on using the Algorithm Design Canvas:\n\n"
    ++ formatChallengeSelectionItems 1 challenges
    ++ "🎨 **Next Step**: Click on a challenge number below to select it and start working!"

/-- The per-challenge block of `_format_mcp_challenges`
(`for i, challenge in enumerate(challenges[:5], 1)`); `challenge.get('track',
'Programming')` reads the one optional key of the record. -/
def formatMcpChallengesItems : Nat → List Challenge → String
  | _, [] => ""
  | i, c :: cs =>
    let description := pyTruncate 200 c.description
    toString i ++ ". **" ++ c.name ++ "**\n"
      ++ "   📚 Track: " ++ c.track.getD "Programming" ++ "\n"
      ++ "   📝 " ++ description ++ "\n\n"
      ++ formatMcpChallengesItems (i + 1) cs

/-- `ProfessorAlGorithm._format_mcp_challenges`: display text for a
remote challenge list; an empty list degrades to the display-only fallback
text (the internal `try/except` never fires on total record fields). -/
def formatMcpChallenges (challenges : List Challenge) (difficulty : String) : String :=
  if challenges = [] then getFallbackChallenges difficulty
  else
    "## 🎯 Topcoder " ++ pyTitle difficulty ++ " Challenges\n\n"
      ++ formatMcpChallengesItems 1 (challenges.take 5)
      ++ "🌟 **Real Challenges**: These are actual " ++ difficulty ++ " challenges from Topcoder!\n"
      ++ "🎨 **Next Step**: Choose one challenge and work through it using the Algorithm Design Canvas below."

/-- The outcome of the remote MCP integration for one `get_challenges` call:
either no client is configured (`mcp_client` is `None`), or the request
failed (exception, non-200 status, or unparsable body, in which case
`_make_mcp_request` returns `None`), or it produced a parsed response that
may or may not carry a usable `challenges` list (`mcp_data and 'challenges'
in mcp_data`). -/
inductive MCPResponse where
  | noClient
  | failure
  | success (challenges : Option (List Challenge))
deriving DecidableEq

/-- The `challenges` list a response usably carries, if any. -/
def MCPResponse.challengesOf : MCPResponse → Option (List Challenge)
  | .success (some cs) => some cs
  | _ => none

/-- `ProfessorAlGorithm.get_challenges`: validates the difficulty (clamping
unknown values to `"easy"`), consumes the remote outcome, stores the chosen
list in `self.available_challenges`, and returns `(display_text, challenges)`
together with the updated session. -/
def getChallenges (s : Session) (difficulty : String) (r : MCPResponse) :
    (String × List Challenge) × Session :=
  let difficulty := if difficulty ∈ ["easy", "medium", "hard"] then difficulty else "easy"
  match r.challengesOf with
  | some challenges =>
    ((formatMcpChallenges challenges difficulty, challenges),
      { s with available_challenges := challenges })
  | none =>
    let challenges := getFallbackChallengeData difficulty
    ((formatChallengeSelection challenges difficulty, challenges),
      { s with available_challenges := challenges })

/-- The `for ex in challenge['examples'][:2]` loop body of
`select_challenge`. -/
def selectedExampleLines : List ChallengeExample → String
  | [] => ""
  | e :: es => "• Input: " ++ e.input ++ " → Output: " ++ e.output ++ "\n" ++ selectedExampleLines es

/-- `ProfessorAlGorithm.select_challenge`: validates the 1-based index
against `available_challenges`, rejecting with a message (and unchanged
session) when the list is empty or the index is out of range; otherwise
stores the chosen challenge, resets the phase to `"constraints"`, and
returns the confirmation text. -/
def selectChallenge (s : Session) (challenge_index : Int) : String × Session :=
  if s.available_challenges = [] then
    ("❌ No challenges available. Please get challenges first.", s)
  else if challenge_index < 1 ∨ challenge_index > (s.available_challenges.length : Int) then
    ("❌ Invalid selection. Please choose a number between 1 and "
      ++ toString s.available_challenges.length ++ ".", s)
  else
    let challenge := s.available_challenges.getD (challenge_index.toNat - 1) default
    let s' := { s with selected_challenge := some challenge, current_phase := "constraints" }
    let result := "## ✅ Challenge Selected: " ++ challenge.name ++ "\n\n"
      ++ "**Description:** " ++ challenge.description ++ "\n\n"
      ++ "**Skills Focus:** " ++ String.intercalate ", " challenge.skills ++ "\n\n"
      ++ (if challenge.examples = [] then ""
          else "**Examples:**\n" ++ selectedExampleLines (challenge.examples.take 2) ++ "\n")
      ++ "🎨 **Ready for Algorithm Design Canvas!**\n"
      ++ "Now click on the **1️⃣ Constraints** tab to start working through this challenge step by step."
    (result, s')

/-- The category value of a skill record from the remote MCP skills
endpoint: `_format_mcp_skills` accepts a nested object (reading its `name`
with default `"Unknown"`) or any other value, rendered with `str` and
replaced by `"Unknown"` when falsy; a missing key defaults to the empty
dictionary, which is also rendered `"Unknown"`. -/
inductive SkillCategoryInfo where
  | obj (name : Option String)
  | other (val : String)
deriving DecidableEq

/-- A skill record from the remote MCP skills endpoint; every key is
optional and read with a default by `_format_mcp_skills`. -/
structure Skill where
  name : Option String
  description : Option String
  category : Option SkillCategoryInfo
deriving DecidableEq

/-- The `cat_name` computation of `_format_mcp_skills`. -/
def skillCategoryName : Option SkillCategoryInfo → String
  | none => "Unknown"
  | some (.obj n) => n.getD "Unknown"
  | some (.other v) => if v = "" then "Unknown" else v

/-- The `algorithms` list of `_get_fallback_skills`. -/
def fallbackAlgorithmsSkills : List String := [
  "**Array Manipulation** - Working with arrays, indices, and traversal patterns",
  "**Two Pointers Technique** - Efficient array traversal using multiple pointers",
  "**Hash Tables** - Fast lookups, counting, and memoization strategies",
  "**Sorting & Searching** - Binary search, merge sort, quicksort fundamentals",
  "**Recursion & Backtracking** - Breaking problems into smaller subproblems"]

/-- The `data-structures` list of `_get_fallback_skills`. -/
def fallbackDataStructuresSkills : List String := [
  "**Linked Lists** - Node-based data structures and pointer manipulation",
  "**Stacks & Queues** - LIFO and FIFO data structures for problem solving",
  "**Trees & Binary Trees** - Hierarchical data structures and traversals",
  "**Heaps** - Priority queues and heap-based algorithms",
  "**Graphs** - Graph representation, traversal, and pathfinding"]

/-- The `dynamic-programming` list of `_get_fallback_skills`. -/
def fallbackDynamicProgrammingSkills : List String := [
  "**Memoization** - Top-down approach with caching",
  "**Tabulation** - Bottom-up approach with iterative solutions",
  "**Optimal Substructure** - Breaking problems into optimal subproblems",
  "**State Transition** - Defining states and transitions between them",
  "**Space Optimization** - Reducing memory usage in DP solutions"]

/-- The `graphs` list of `_get_fallback_skills`. -/
def fallbackGraphsSkills : List String := [
  "**Graph Representation** - Adjacency lists, matrices, and edge lists",
  "**BFS & DFS** - Breadth-first and depth-first search algorithms",
  "**Shortest Paths** - Dijkstra\x27s algorithm and pathfinding",
  "**Topological Sorting** - Ordering vertices in directed acyclic graphs",
  "**Connected Components** - Finding and analyzing graph connectivity"]

/-- `ProfessorAlGorithm._get_fallback_skills`: static skills text for a
category (`dict.get` defaults to the algorithms list). -/
def getFallbackSkills (category : String) : String :=
  let skills :=
    if category = "algorithms" then fallbackAlgorithmsSkills
    else if category = "data-structures" then fallbackDataStructuresSkills
    else if category = "dynamic-programming" then fallbackDynamicProgrammingSkills
    else if category = "graphs" then fallbackGraphsSkills
    else fallbackAlgorithmsSkills
  "## Recommended " ++ pyTitle category ++ " Skills to Practice\n\n"
    ++ String.intercalate "\n" (skills.map (fun skill => "• " ++ skill))

/-- The per-skill block of `_format_mcp_skills`
(`for i, skill in enumerate(skills[:8], 1)`). -/
def formatMcpSkillsItems : Nat → List Skill → String
  | _, [] => ""
  | i, sk :: sks =>
    let name := sk.name.getD ("Skill #" ++ toString i)
    let cat_name := skillCategoryName sk.category
    let description := pyTruncate 150 (sk.description.getD "No description available")
    "• **" ++ name ++ "**\n"
      ++ "  📂 Category: " ++ cat_name ++ "\n"
      ++ (if description ≠ "" ∧ description ≠ "No description available" then
            "  📖 " ++ description ++ "\n"
          else "")
      ++ "\n"
      ++ formatMcpSkillsItems (i + 1) sks

/-- `ProfessorAlGorithm._format_mcp_skills`: display text for a remote
skills list; an empty list degrades to the fallback skills text. -/
def formatMcpSkills (skills : List Skill) (category : String) : String :=
  if skills = [] then getFallbackSkills category
  else
    "## 🛠️ Topcoder " ++ pyTitle category ++ " Skills\n\n"
      ++ formatMcpSkillsItems 1 (skills.take 8)
      ++ "🌟 **Real Skills**: These are actual " ++ category ++ " skills from Topcoder\x27s platform!\n"
      ++ "💡 **Practice Tip**: Focus on one skill at a time and solve related challenges."

/-- The outcome of the remote MCP integration for one `get_skills` call,
analogous to `MCPResponse`. -/
inductive SkillsResponse where
  | noClient
  | failure
  | success (skills : Option (List Skill))
deriving DecidableEq

/-- The `skills` list a response usably carries, if any. -/
def SkillsResponse.skillsOf : SkillsResponse → Option (List Skill)
  | .success (some sk) => some sk
  | _ => none

/-- `ProfessorAlGorithm.get_skills`: validates the category (clamping
unknown values to `"algorithms"`), then renders the remote skills list or
the static fallback text.  The method assigns no instance state. -/
def getSkills (category : String) (r : SkillsResponse) : String :=
  let category :=
    if category ∈ ["algorithms", "data-structures", "dynamic-programming", "graphs"] then category
    else "algorithms"
  match r.skillsOf with
  | some skills => formatMcpSkills skills category
  | none => getFallbackSkills category

/-- The `challenge_context` block built at the top of
`guide_canvas_phase` from the selected challenge, if any. -/
def challengeContext : Option Challenge → String
  | none => ""
  | some challenge =>
    "\n\n**📋 Current Challenge: " ++ challenge.name ++ "**\n"
      ++ "*" ++ challenge.description ++ "*\n"
      ++ (match challenge.examples with
          | [] => ""
          | e :: _ => "*Example: " ++ e.input ++ " → " ++ e.output ++ "*\n")

/-- The interpolation inside the `tests` template of `guide_canvas_phase`:
`self.selected_challenge['examples'][0]['input']` guarded only by
`'examples' in self.selected_challenge` (always true on a record), so an
empty example list raises `IndexError("list index out of range")`. -/
def testsExampleLine : Option Challenge → Except String String
  | none => .ok ""
  | some challenge =>
    match challenge.examples with
    | [] => .error "list index out of range"
    | e :: _ => .ok ("- Try working through: " ++ e.input)

/-- The interpolation inside the `ideas` template of `guide_canvas_phase`:
`', '.join(self.selected_challenge['skills'])` when a challenge is set. -/
def ideasConsiderLine : Option Challenge → String
  | none => ""
  | some challenge => "- Consider: " ++ String.intercalate ", " challenge.skills

/-- The `constraints` guidance template of `guide_canvas_phase`. -/
def constraintsGuidance (ctx : String) : String :=
  "Let\x27s analyze the constraints for your selected challenge:" ++ ctx
    ++ "\n\n🔍 **Key Questions to Consider:**\n\n1. **Input Format**: What type of data are you working with?\n   - What data structures are involved?\n   - What are the input ranges or limits?\n\n2. **Output Format**: What should your solution return?\n   - Exact format required?\n   - Any specific data type?\n\n3. **Performance Requirements**: Are there time/space complexity limits?\n   - How many elements might you process?\n   - Memory constraints?\n\n4. **Edge Cases**: What special scenarios should you handle?\n   - Empty inputs, null values?\n   - Minimum/maximum cases?\n\n💡 **Your Task**: Analyze the challenge above and define the constraints clearly."

/-- The `ideas` guidance template of `guide_canvas_phase`. -/
def ideasGuidance (ctx : String) (sel : Option Challenge) : String :=
  "Now let\x27s explore different approaches for your challenge:" ++ ctx
    ++ "\n\n🧠 **Brainstorming Framework:**\n\n1. **Brute Force**: What\x27s the most straightforward solution?\n   - How would you solve this step by step?\n   - Don\x27t worry about efficiency yet!\n\n2. **Pattern Recognition**: What algorithmic patterns might apply?\n   "
    ++ ideasConsiderLine sel
    ++ "\n   - Hash tables, two pointers, sliding window, etc.?\n\n3. **Optimized Approaches**: Can we improve time/space complexity?\n   - What\x27s the bottleneck in the brute force approach?\n   - Which data structures could help?\n\n4. **Trade-offs**: What are the pros and cons of each approach?\n\n💡 **Your Task**: Share your solution ideas and I\x27ll help you evaluate them!"

/-- The `tests` guidance template of `guide_canvas_phase`. -/
def testsGuidance (ctx tryLine : String) : String :=
  "Let\x27s create comprehensive test scenarios for your challenge:" ++ ctx
    ++ "\n\n🧪 **Testing Strategy:**\n\n1. **Basic Cases**: Start with the given examples\n   "
    ++ tryLine
    ++ "\n\n2. **Edge Cases**: What boundary conditions exist?\n   - Empty inputs, single elements\n   - Minimum/maximum values\n   - Zero, negative numbers?\n\n3. **Corner Cases**: Unusual but valid scenarios\n   - What tricky inputs might break your solution?\n\n4. **Invalid Cases**: How should your solution handle bad input?\n   - Null inputs, wrong data types\n\n💡 **Your Task**: Design test cases that thoroughly validate your solution!"

/-- The `code` guidance template of `guide_canvas_phase`. -/
def codeGuidance (ctx : String) : String :=
  "Time to organize your implementation for:" ++ ctx
    ++ "\n\n👩‍💻 **Implementation Planning:**\n\n1. **Function Signature**: Define your main function\n   - What parameters does it need?\n   - What should it return?\n\n2. **Algorithm Steps**: Break down your chosen approach\n   - List the main steps in order\n   - Identify the core logic\n\n3. **Helper Functions**: What utilities do you need?\n   - Validation, data processing, etc.\n\n4. **Implementation Plan**: Step-by-step coding approach\n   - Which part will you implement first?\n   - How will you test as you go?\n\n💡 **Remember**: I\x27ll guide your thinking and help you structure your approach, but you\x27ll write the actual code!"

/-- `ProfessorAlGorithm.guide_canvas_phase`: builds the `phase_guidance`
dictionary (all four templates are evaluated eagerly, so the `tests`
interpolation can raise regardless of the requested phase), selects the
entry for `phase` with `dict.get` defaulting to `"constraints"`, renders
the response, and echoes a non-blank `user_input`.  The method assigns no
instance state, so the session is returned unchanged. -/
def guideCanvasPhase (s : Session) (phase user_input : String) :
    Except String (String × String) × Session :=
  let ctx := challengeContext s.selected_challenge
  let result : Except String (String × String) :=
    match testsExampleLine s.selected_challenge with
    | .error e => .error e
    | .ok tryLine =>
    let current_guidance :=
      if phase = "constraints" then ("Phase 1: Define Constraints", constraintsGuidance ctx)
      else if phase = "ideas" then
        ("Phase 2: Brainstorm Solution Ideas", ideasGuidance ctx s.selected_challenge)
      else if phase = "tests" then ("Phase 3: Design Test Cases", testsGuidance ctx tryLine)
      else if phase = "code" then ("Phase 4: Structure Your Code", codeGuidance ctx)
      else ("Phase 1: Define Constraints", constraintsGuidance ctx)
    let response := "## " ++ current_guidance.1 ++ "\n\n" ++ current_guidance.2
    let response :=
      if pyStrip user_input ≠ "" then
        response ++ "\n\n**Your Input:** " ++ user_input
          ++ "\n\nGreat! Let me help you think through this..."
      else response
    .ok (response, phase)
  (result, s)

/-- The UI-layer `guide_phase` handler (`create_gradio_interface`,
lines 1133-1147): rejects when no challenge is selected, prompts for a
retry on blank or too-short input, and otherwise renders the guidance for
the stripped input, converting any exception into a plain error message. -/
def guidePhase (s : Session) (phase user_input : String) : String × String :=
  if s.selected_challenge = none then
    ("❌ Please select a challenge first before working on the Algorithm Design Canvas.", phase)
  else if user_input = "" ∨ pyStrip user_input = "" then
    ("Please provide some input for the " ++ phase ++ " phase to get guidance.", phase)
  else if (pyStrip user_input).length < 10 then
    ("Please provide more detailed input for the " ++ phase ++ " phase (at least 10 characters).",
      phase)
  else
    match (guideCanvasPhase s phase (pyStrip user_input)).1 with
    | .ok r => r
    | .error e =>
      ("❌ Error processing your input: " ++ e ++ "\n\nPlease try again with your "
        ++ phase ++ " phase input.", phase)

/-- Modelled from the spec: the category of a detected pattern
(spec section 3, `PatternMatch`); the pattern detector itself appears in no
source file under `src/`, only in the spec (section 4.1). -/
inductive PatternCategory where
  | data_structure
  | algorithm
  | complexity_hint
deriving DecidableEq

/-- Modelled from the spec: a detected pattern with the keywords found in
the text (spec section 3, `PatternMatch`). -/
structure PatternMatch where
  category : PatternCategory
  pattern_name : String
  matched_keywords : List String
deriving DecidableEq

/-- Modelled from the spec: the result of one detection call (spec
section 3, `DetectionResult`); `suggested_approaches` is a deduplicated
collection, kept here as a duplicate-free list. -/
structure DetectionResult where
  detected_patterns : List PatternMatch
  suggested_approaches : List String
  complexity_estimate : String
deriving DecidableEq

/-- Modelled from the spec: the fixed, ordered mapping from
(category, pattern_name) to lowercase keyword substrings (spec section 4.1);
the table content is reconstructed from the patterns and keywords the spec
names (array, tree, two_pointers, ...), since no source file carries it. -/
def patternTable : List (PatternCategory × String × List String) := [
  (.data_structure, "array", ["array", "subarray", "list of integers"]),
  (.data_structure, "tree", ["tree", "binary tree", "bst"]),
  (.data_structure, "linked_list", ["linked list", "node"]),
  (.data_structure, "stack", ["stack", "parentheses", "brackets"]),
  (.data_structure, "hash_table", ["hash", "dictionary", "lookup"]),
  (.data_structure, "graph", ["graph", "vertices", "edges"]),
  (.algorithm, "two_pointers", ["two pointers", "pair", "sum"]),
  (.algorithm, "sliding_window", ["sliding window", "substring", "window"]),
  (.algorithm, "binary_search", ["binary search", "sorted array", "search"]),
  (.algorithm, "dynamic_programming", ["dynamic programming", "maximum", "minimum", "optimal"]),
  (.algorithm, "backtracking", ["backtracking", "permutation", "combination"]),
  (.algorithm, "graph_traversal", ["bfs", "dfs", "shortest path"]),
  (.complexity_hint, "large_input", ["constraint", "efficient", "optimize"])]

/-- Modelled from the spec: the second static mapping from pattern name to
human-readable technique names (spec section 4.1, suggested approaches). -/
def approachesTable : List (String × List String) := [
  ("array", ["Index manipulation", "Iteration"]),
  ("tree", ["Recursive traversal", "Level-order traversal"]),
  ("linked_list", ["Pointer manipulation", "Dummy head node"]),
  ("stack", ["Stack-based matching"]),
  ("hash_table", ["Hash map lookup", "Counting"]),
  ("graph", ["Adjacency list representation"]),
  ("two_pointers", ["Two pointers", "Hash map lookup"]),
  ("sliding_window", ["Sliding window"]),
  ("binary_search", ["Binary search"]),
  ("dynamic_programming", ["Memoization", "Tabulation"]),
  ("backtracking", ["Backtracking"]),
  ("graph_traversal", ["Breadth-first search", "Depth-first search"]),
  ("large_input", ["Complexity analysis"])]

/-- Modelled from the spec: the easy-bucket keyword list of the complexity
estimator (spec section 4.1). -/
def easyComplexityKeywords : List String :=
  ["two sum", "palindrome", "duplicate", "reverse", "valid"]

/-- Modelled from the spec: the medium-bucket keyword list of the
complexity estimator (spec section 4.1). -/
def mediumComplexityKeywords : List String :=
  ["subarray", "substring", "rotate", "interval", "level order"]

/-- Modelled from the spec: the hard-bucket keyword list of the complexity
estimator (spec section 4.1). -/
def hardComplexityKeywords : List String :=
  ["median", "regular expression", "n-queens", "serialize", "word ladder"]

/-- Modelled from the spec: one bucket's score counts the bucket keywords
occurring as substrings of the combined text (spec section 4.1). -/
def bucketScore (text : String) (kws : List String) : Nat :=
  (kws.filter (fun k => containsSubstr text k)).length

/-- Modelled from the spec: pick the bucket with the highest count,
first maximum wins when scanning in bucket-definition order easy, medium,
hard (spec sections 4.1 and 9, the documented language-level tie-break). -/
def complexityEstimate (text : String) : String :=
  let e := bucketScore text easyComplexityKeywords
  let m := bucketScore text mediumComplexityKeywords
  let h := bucketScore text hardComplexityKeywords
  if m ≤ e ∧ h ≤ e then "easy"
  else if h ≤ m then "medium"
  else "hard"

/-- Modelled from the spec: `detect(title, description)` of the pattern
detector (spec section 4.1), which is absent from the source files under
`src/`.  The combined text is the lower-cased `"title description"`; each
table entry whose keywords hit the text emits a `PatternMatch` carrying
every keyword found, in table order; approaches are the deduplicated union
over detected patterns; the complexity estimate is the keyword-count vote. -/
def detect (title description : String) : DetectionResult :=
  let text := pyLower (title ++ " " ++ description)
  let detected := patternTable.filterMap (fun entry =>
    let matched := entry.2.2.filter (fun k => containsSubstr text k)
    if matched = [] then none
    else some { category := entry.1, pattern_name := entry.2.1, matched_keywords := matched })
  let approaches :=
    ((detected.map (fun pm => ((approachesTable.lookup pm.pattern_name).getD []))).flatten).eraseDups
  { detected_patterns := detected
    suggested_approaches := approaches
    complexity_estimate := complexityEstimate text }

/-- A concrete session with the first fallback easy challenge selected and
the easy catalog loaded, used to instantiate theorems. -/
def twoSumSession : Session :=
  { current_phase := "ideas"
    selected_challenge := some (fallbackEasyChallenges.getD 0 default)
    available_challenges := fallbackEasyChallenges }

/-- Stripping the empty string yields the empty string. -/
theorem pyStrip_empty : pyStrip "" = "" := rfl

/-- C1: whenever the remote MCP integration is unavailable or fails (no
client configured, a failed request — non-200 status, exception or
unparsable body — or a parsed response without a usable `challenges` list),
`get_challenges` returns the static fallback catalog for the requested
difficulty as a normal result; for `"easy"` that catalog is exactly the
five hard-coded easy challenges.  No error reaches the caller: the result
is an ordinary `(display_text, challenges)` pair. -/
theorem getChallenges_fallback_on_mcp_failure (s : Session) (difficulty : String)
    (r : MCPResponse) (hr : r.challengesOf = none) :
    (getChallenges s difficulty r).1.2 = getFallbackChallengeData difficulty ∧
      (getChallenges s "easy" r).1.2 = fallbackEasyChallenges ∧
      fallbackEasyChallenges.length = 5 := by
  refine ⟨?_, ?_, rfl⟩
  · unfold getChallenges
    rw [hr]
    by_cases hd : difficulty ∈ ["easy", "medium", "hard"]
    · simp [hd]
    · simp only [List.mem_cons, List.mem_singleton, not_or] at hd
      simp [hd.1, hd.2.1, hd.2.2, getFallbackChallengeData]
  · unfold getChallenges
    rw [hr]
    simp [getFallbackChallengeData]

/-- Witness for C1 at a failed request and difficulty `"easy"`. -/
theorem getChallenges_fallback_on_mcp_failure_witness :
    MCPResponse.failure.challengesOf = none ∧
      ((getChallenges initialSession "easy" .failure).1.2 =
          getFallbackChallengeData "easy" ∧
        (getChallenges initialSession "easy" .failure).1.2 = fallbackEasyChallenges ∧
        fallbackEasyChallenges.length = 5) :=
  ⟨rfl, getChallenges_fallback_on_mcp_failure initialSession "easy" .failure rfl⟩

/-- C5: an unknown difficulty string makes `get_challenges` behave exactly
as if called with `"easy"`, and an unknown category string makes
`get_skills` behave exactly as if called with `"algorithms"` — both clamp
to the safe default and never raise. -/
theorem unknown_difficulty_and_category_clamped (difficulty category : String)
    (hd : difficulty ∉ ["easy", "medium", "hard"])
    (hc : category ∉ ["algorithms", "data-structures", "dynamic-programming", "graphs"]) :
    (∀ s r, getChallenges s difficulty r = getChallenges s "easy" r) ∧
      ∀ r, getSkills category r = getSkills "algorithms" r := by
  constructor
  · intro s r
    unfold getChallenges
    simp [hd]
  · intro r
    unfold getSkills
    simp [hc]

/-- Witness for C5 at difficulty `"expert"` and category `"strings"`. -/
theorem unknown_difficulty_and_category_clamped_witness :
    "expert" ∉ (["easy", "medium", "hard"] : List String) ∧
      "strings" ∉ (["algorithms", "data-structures", "dynamic-programming", "graphs"] : List String) ∧
      getChallenges initialSession "expert" .failure = getChallenges initialSession "easy" .failure ∧
      getSkills "strings" .failure = getSkills "algorithms" .failure :=
  ⟨by decide, by decide,
    (unknown_difficulty_and_category_clamped "expert" "strings" (by decide) (by decide)).1
      initialSession .failure,
    (unknown_difficulty_and_category_clamped "expert" "strings" (by decide) (by decide)).2
      .failure⟩

/-- C10: every completed `get_challenges` call leaves
`available_challenges` equal to the challenge list it returns, whether the
data came from the remote path or the static fallback, so subsequent
selection indices refer to the challenges last displayed. -/
theorem getChallenges_syncs_available_challenges (s : Session) (difficulty : String)
    (r : MCPResponse) :
    (getChallenges s difficulty r).2.available_challenges =
      (getChallenges s difficulty r).1.2 := by
  unfold getChallenges
  cases hr : r.challengesOf <;> simp [hr]

/-- C2: for every phase string outside the four known values,
`guide_canvas_phase` produces exactly the guidance document it would
produce for `"constraints"` with the same user input and session state —
the `dict.get` default is taken silently, so the behaviour (including the
impossible-to-reach error case) coincides with the `"constraints"` call. -/
theorem guideCanvasPhase_unknown_phase_defaults_to_constraints (s : Session)
    (user_input phase : String) (h1 : phase ≠ "constraints") (h2 : phase ≠ "ideas")
    (h3 : phase ≠ "tests") (h4 : phase ≠ "code") :
    Except.map Prod.fst (guideCanvasPhase s phase user_input).1 =
      Except.map Prod.fst (guideCanvasPhase s "constraints" user_input).1 := by
  unfold guideCanvasPhase
  cases htl : testsExampleLine s.selected_challenge with
  | error e => simp [htl]
  | ok tryLine => simp [htl, h1, h2, h3, h4, Except.map]

/-- Witness for C2 at the unknown phase `"summary"`. -/
theorem guideCanvasPhase_unknown_phase_defaults_to_constraints_witness :
    ("summary" ≠ "constraints" ∧ "summary" ≠ "ideas" ∧ "summary" ≠ "tests" ∧
        "summary" ≠ "code") ∧
      Except.map Prod.fst (guideCanvasPhase twoSumSession "summary" "my notes").1 =
        Except.map Prod.fst (guideCanvasPhase twoSumSession "constraints" "my notes").1 :=
  ⟨⟨by decide, by decide, by decide, by decide⟩,
    guideCanvasPhase_unknown_phase_defaults_to_constraints twoSumSession "my notes" "summary"
      (by decide) (by decide) (by decide) (by decide)⟩

/-- C3: when the session has no selected challenge, the UI-layer
`guide_phase` handler returns, for every phase and user input, the plain
rejection message instructing the user to select a challenge first —
a normal return value, never an exception. -/
theorem guidePhase_rejects_without_selected_challenge (s : Session)
    (phase user_input : String) (h : s.selected_challenge = none) :
    guidePhase s phase user_input =
      ("❌ Please select a challenge first before working on the Algorithm Design Canvas.",
        phase) := by
  simp [guidePhase, h]

/-- Witness for C3 at the freshly initialised session. -/
theorem guidePhase_rejects_without_selected_challenge_witness :
    initialSession.selected_challenge = none ∧
      guidePhase initialSession "constraints" "some long enough input" =
        ("❌ Please select a challenge first before working on the Algorithm Design Canvas.",
          "constraints") :=
  ⟨rfl, guidePhase_rejects_without_selected_challenge initialSession "constraints"
    "some long enough input" rfl⟩

/-- C6: with a challenge selected and user input that is empty or strips to
fewer than 10 characters, `guide_phase` returns the phase-specific
retry-prompt message (the blank-input prompt or the more-detail prompt) and
never reaches the guidance selector, so no guidance template is rendered. -/
theorem guidePhase_short_input_retry_prompt (s : Session) (phase user_input : String)
    (c : Challenge) (hsel : s.selected_challenge = some c)
    (hshort : (pyStrip user_input).length < 10) :
    guidePhase s phase user_input =
      (if pyStrip user_input = "" then
          "Please provide some input for the " ++ phase ++ " phase to get guidance."
        else
          "Please provide more detailed input for the " ++ phase
            ++ " phase (at least 10 characters).",
        phase) := by
  unfold guidePhase
  rw [hsel]
  by_cases hb : pyStrip user_input = ""
  · simp [hb]
  · have hue : user_input ≠ "" := fun h => hb (h ▸ pyStrip_empty)
    simp [hb, hue, hshort]

/-- Witness for C6 at the five-character input `"short"`. -/
theorem guidePhase_short_input_retry_prompt_witness :
    twoSumSession.selected_challenge = some (fallbackEasyChallenges.getD 0 default) ∧
      (pyStrip "short").length < 10 ∧
      guidePhase twoSumSession "tests" "short" =
        (if pyStrip "short" = "" then
            "Please provide some input for the " ++ "tests" ++ " phase to get guidance."
          else
            "Please provide more detailed input for the " ++ "tests"
              ++ " phase (at least 10 characters).",
          "tests") :=
  ⟨rfl, by decide,
    guidePhase_short_input_retry_prompt twoSumSession "tests" "short"
      (fallbackEasyChallenges.getD 0 default) rfl (by decide)⟩

/-- C7: `guide_canvas_phase` is pure — its result is determined by the
phase, the user input and the session's selected-challenge snapshot alone
(two sessions agreeing on `selected_challenge` give identical return
values), and the call leaves every session field unchanged. -/
theorem guideCanvasPhase_pure (s₁ s₂ : Session) (phase user_input : String)
    (h : s₁.selected_challenge = s₂.selected_challenge) :
    (guideCanvasPhase s₁ phase user_input).1 = (guideCanvasPhase s₂ phase user_input).1 ∧
      (guideCanvasPhase s₁ phase user_input).2 = s₁ := by
  constructor
  · unfold guideCanvasPhase
    rw [h]
  · rfl

/-- Witness for C7: two sessions that differ in phase pointer and catalog
but share the selected challenge. -/
theorem guideCanvasPhase_pure_witness :
    twoSumSession.selected_challenge =
        (Session.mk "code" twoSumSession.selected_challenge []).selected_challenge ∧
      ((guideCanvasPhase twoSumSession "ideas" "x").1 =
          (guideCanvasPhase (Session.mk "code" twoSumSession.selected_challenge [])
            "ideas" "x").1 ∧
        (guideCanvasPhase twoSumSession "ideas" "x").2 = twoSumSession) :=
  ⟨rfl, guideCanvasPhase_pure twoSumSession
    (Session.mk "code" twoSumSession.selected_challenge []) "ideas" "x" rfl⟩

/-- C4: for every out-of-range selection index (below 1, above the catalog
length, or any index when the catalog is empty), `select_challenge` returns
a user-facing error message and leaves the whole session — in particular
`selected_challenge` and `current_phase` — unchanged, raising nothing. -/
theorem selectChallenge_rejects_out_of_range (s : Session) (challenge_index : Int)
    (h : s.available_challenges = [] ∨ challenge_index < 1 ∨
      challenge_index > (s.available_challenges.length : Int)) :
    (selectChallenge s challenge_index).1 =
        (if s.available_challenges = [] then
          "❌ No challenges available. Please get challenges first."
        else
          "❌ Invalid selection. Please choose a number between 1 and "
            ++ toString s.available_challenges.length ++ ".") ∧
      (selectChallenge s challenge_index).2 = s := by
  unfold selectChallenge
  by_cases he : s.available_challenges = []
  · simp [he]
  · have hor : challenge_index < 1 ∨
        challenge_index > (s.available_challenges.length : Int) := by
      rcases h with h | h | h
      · exact absurd h he
      · exact Or.inl h
      · exact Or.inr h
    rw [if_neg he, if_pos hor, if_neg he]
    exact ⟨rfl, rfl⟩

/-- Witness for C4 at index 6 over the five-challenge easy catalog. -/
theorem selectChallenge_rejects_out_of_range_witness :
    (twoSumSession.available_challenges = [] ∨ (6 : Int) < 1 ∨
        (6 : Int) > (twoSumSession.available_challenges.length : Int)) ∧
      ((selectChallenge twoSumSession 6).1 =
          (if twoSumSession.available_challenges = [] then
            "❌ No challenges available. Please get challenges first."
          else
            "❌ Invalid selection. Please choose a number between 1 and "
              ++ toString twoSumSession.available_challenges.length ++ ".") ∧
        (selectChallenge twoSumSession 6).2 = twoSumSession) :=
  ⟨Or.inr (Or.inr (by decide)),
    selectChallenge_rejects_out_of_range twoSumSession 6 (Or.inr (Or.inr (by decide)))⟩

/-- C9: for a non-empty catalog and an in-range 1-based index,
`select_challenge` stores the index-th catalog entry in
`selected_challenge` and resets `current_phase` to `"constraints"`,
whatever the previous phase was. -/
theorem selectChallenge_in_range_selects (s : Session) (challenge_index : Int)
    (hne : s.available_challenges ≠ []) (h1 : 1 ≤ challenge_index)
    (h2 : challenge_index ≤ (s.available_challenges.length : Int)) :
    (selectChallenge s challenge_index).2.selected_challenge =
        some (s.available_challenges.getD (challenge_index.toNat - 1) default) ∧
      (selectChallenge s challenge_index).2.current_phase = "constraints" := by
  unfold selectChallenge
  rw [if_neg hne, if_neg (not_or.mpr ⟨not_lt.mpr h1, not_lt.mpr h2⟩)]
  exact ⟨rfl, rfl⟩

/-- Witness for C9 at index 3 over the five-challenge easy catalog. -/
theorem selectChallenge_in_range_selects_witness :
    twoSumSession.available_challenges ≠ [] ∧ (1 : Int) ≤ 3 ∧
      (3 : Int) ≤ (twoSumSession.available_challenges.length : Int) ∧
      ((selectChallenge twoSumSession 3).2.selected_challenge =
          some (twoSumSession.available_challenges.getD ((3 : Int).toNat - 1) default) ∧
        (selectChallenge twoSumSession 3).2.current_phase = "constraints") :=
  ⟨by decide, by decide, by decide,
    selectChallenge_in_range_selects twoSumSession 3 (by decide) (by decide) (by decide)⟩

/-- C8: the pattern detector never fails on empty inputs — `detect("", "")`
returns a `DetectionResult` with no detected patterns, no suggested
approaches, and the documented default complexity estimate (`"easy"`, the
first-maximum tie-break over all-zero keyword counts). -/
theorem detect_empty_inputs_default :
    detect "" "" =
      { detected_patterns := [], suggested_approaches := [],
        complexity_estimate := "easy" } := by
  decide
